import Mathlib

/-!
Verification of the task_ticker dependency/recurrence engine.

This file gives a shallow embedding, in Lean 4, of the core data model and
operations of the task_ticker repository (models/task.py, logic/operations.py,
logic/validation.py) and proves the specified properties about them.

Modelling conventions:
- Python strings are Lean `String`; the Python string methods `strip`, `lower`
  and `title` are embedded for the ASCII fragment (`pystrip`, `pylower`,
  `pytitle`), which is the fragment exercised by the program data.
- Python `None`-able values are `Option`; Python truthiness of strings
  (where the code relies on it) is modelled explicitly as a non-empty check.
- The id -> Task dictionary is an association list; `dictGet` gives the
  binding of the last pair with the key, matching Python dict construction
  where later insertions win.
- `datetime.date` values are `Date` records (year, month, day as `Int`);
  `datetime.fromisoformat` / `date.isoformat` are `parseIsoDate` / `Date.toIso`.
  Python `date` restricts years to 1..9999; `validDate` captures that.
- Functions that can raise return `Except PyErr` (or `Option`); a rejected
  status toggle is modelled by returning the unchanged task paired with the
  raised error.
-/

namespace TaskTicker

/-! ## Python string helpers (ASCII fragment) -/

/-- Characters treated as whitespace by Python str.strip (ASCII fragment). -/
def isPySpace (c : Char) : Bool :=
  c = ' ' || c = '\t' || c = '\n' || c = '\r' || c = '\x0b' || c = '\x0c'

/-- Embedding of Python str.strip (ASCII whitespace). -/
def pystrip (s : String) : String :=
  String.mk (((s.data.dropWhile isPySpace).reverse.dropWhile isPySpace).reverse)

/-- Embedding of Python str.lower (ASCII fragment). -/
def pylower (s : String) : String :=
  String.mk (s.data.map Char.toLower)

/-- Worker for pytitle: the flag records whether the previous character was
alphabetic (a cased character), in which case the next letter is lowercased
rather than starting a new word. -/
def pytitleGo : Bool → List Char → List Char
  | _, [] => []
  | prevAlpha, c :: cs =>
    if c.isAlpha then
      (if prevAlpha then c.toLower else c.toUpper) :: pytitleGo true cs
    else
      c :: pytitleGo false cs

/-- Embedding of Python str.title (ASCII fragment). -/
def pytitle (s : String) : String :=
  String.mk (pytitleGo false s.data)

/-- Lexicographic comparison of character lists by code point. -/
def charListLt : List Char → List Char → Bool
  | [], [] => false
  | [], _ :: _ => true
  | _ :: _, [] => false
  | a :: as, b :: bs =>
    if a.toNat < b.toNat then true
    else if b.toNat < a.toNat then false
    else charListLt as bs

/-- Embedding of the Python string less-than (lexicographic by code
point), used for due-date comparisons of ISO date strings. -/
def pyStrLt (a b : String) : Bool :=
  charListLt a.data b.data

/-! ## Calendar dates (datetime.date) -/

/-- A calendar date, as in Python datetime.date. -/
structure Date where
  year : Int
  month : Int
  day : Int
deriving DecidableEq, Repr

/-- Gregorian leap-year rule, as used by datetime.date. -/
def isLeapYear (y : Int) : Bool :=
  y % 4 = 0 && (!(y % 100 = 0) || y % 400 = 0)

/-- Number of days in a month of a given year. -/
def daysInMonth (y m : Int) : Int :=
  if m = 2 then (if isLeapYear y then 29 else 28)
  else if m = 4 ∨ m = 6 ∨ m = 9 ∨ m = 11 then 30
  else 31

/-- Validity of a (year, month, day) triple as a datetime.date; Python
restricts years to MINYEAR = 1 .. MAXYEAR = 9999. -/
def validDate (y m d : Int) : Bool :=
  decide (1 ≤ y) && decide (y ≤ 9999) && decide (1 ≤ m) && decide (m ≤ 12)
    && decide (1 ≤ d) && decide (d ≤ daysInMonth y m)

/-- Successor day in the calendar. -/
def nextDay (d : Date) : Date :=
  if d.day < daysInMonth d.year d.month then ⟨d.year, d.month, d.day + 1⟩
  else if d.month < 12 then ⟨d.year, d.month + 1, 1⟩
  else ⟨d.year + 1, 1, 1⟩

/-- Predecessor day in the calendar. -/
def prevDay (d : Date) : Date :=
  if 1 < d.day then ⟨d.year, d.month, d.day - 1⟩
  else if 1 < d.month then ⟨d.year, d.month - 1, daysInMonth d.year (d.month - 1)⟩
  else ⟨d.year - 1, 12, 31⟩

/-- Iterate a date function n times. -/
def iterDate (f : Date → Date) : Nat → Date → Date
  | 0, d => d
  | Nat.succ n, d => iterDate f n (f d)

/-- Embedding of date + timedelta(days = n). -/
def addDays (d : Date) (n : Int) : Date :=
  if 0 ≤ n then iterDate nextDay n.toNat d else iterDate prevDay (-n).toNat d

/-- Range check applied after date arithmetic: Python raises OverflowError or
ValueError when the result leaves the representable range. -/
def dateInRange (d : Date) : Option Date :=
  if validDate d.year d.month d.day then some d else none

/-- Parse a digit character list to a Nat, or none. -/
def digitsToNat (cs : List Char) : Option Nat :=
  if cs.length > 0 && cs.all Char.isDigit then
    some (cs.foldl (fun n c => 10 * n + (c.toNat - 48)) 0)
  else none

/-- Split a character list on the dash character. -/
def splitDash : List Char → List (List Char)
  | [] => [[]]
  | c :: cs =>
    match splitDash cs with
    | [] => [[]]
    | r :: rs => if c = '-' then [] :: r :: rs else (c :: r) :: rs

/-- Embedding of datetime.fromisoformat restricted to the YYYY-MM-DD form
produced by date.isoformat, the only form the program writes. -/
def parseIsoDate (s : String) : Option Date :=
  match splitDash s.data with
  | [ys, ms, ds] =>
    if ys.length = 4 ∧ ms.length = 2 ∧ ds.length = 2 then
      match digitsToNat ys, digitsToNat ms, digitsToNat ds with
      | some y, some m, some dd =>
        if validDate (Int.ofNat y) (Int.ofNat m) (Int.ofNat dd) then
          some ⟨Int.ofNat y, Int.ofNat m, Int.ofNat dd⟩
        else none
      | _, _, _ => none
    else none
  | _ => none

/-- Left-pad a string with zeros to width w. -/
def zfill (w : Nat) (s : String) : String :=
  if w ≤ s.length then s else String.mk (List.replicate (w - s.length) '0') ++ s

/-- Embedding of date.isoformat. -/
def Date.toIso (d : Date) : String :=
  zfill 4 (toString d.year.toNat) ++ "-" ++ zfill 2 (toString d.month.toNat)
    ++ "-" ++ zfill 2 (toString d.day.toNat)

/-! ## Data model: Note, Task, TaskMeta (models/note.py, models/task.py) -/

/-- The fragment of the Note dataclass that the Task model touches
(to_dict reads id and content; link_note writes task_id). -/
structure Note where
  id : String
  content : String
  task_id : Option String := none
deriving DecidableEq, Repr

/-- The notes field of a Task holds either a raw string or a Note instance
(Union[str, Note] in the source). -/
inductive NotesVal where
  | raw (s : String)
  | note (n : Note)
deriving DecidableEq, Repr

/-- A recurrence rule dictionary. The source stores these as dicts with keys
frequency, interval, count, end_date, clone_type, always read through .get
with the defaults recorded here, so a total record is a faithful model. -/
structure Recurrence where
  frequency : String := "none"
  interval : Int := 1
  count : Option Int := none
  end_date : Option String := none
  clone_type : String := "shallow"
deriving DecidableEq, Repr

/-- The recurrence dict default of the TaskMeta dataclass. -/
def defaultRecurrence : Recurrence :=
  { frequency := "none", interval := 1, count := none, end_date := none,
    clone_type := "shallow" }

/-- The TaskMeta dataclass with its field defaults. -/
structure TaskMeta where
  group : String := "General"
  due_date : Option String := none
  priority : String := "normal"
  status : String := "pending"
  sequence : Int := 1
  depends_on : Option String := none
  notes : NotesVal := NotesVal.raw ""
  tags : List String := []
  recurrence : Option Recurrence := some defaultRecurrence
  parent_id : Option String := none
  subtasks : List String := []
  task_id : Option String := none
  created_at : Option String := none
deriving DecidableEq, Repr

/-- The Task object, fields exactly as assigned by Task.__init__. -/
structure Task where
  id : String
  task : String
  group : String
  due_date : String
  created_at : String
  priority : String
  status : String
  sequence : Int
  depends_on : Option String
  notes : NotesVal
  note_id : Option String
  tags : List String
  recurrence : Option Recurrence
  parent_id : Option String
  subtasks : List String
deriving DecidableEq, Repr

/-- Embedding of Task.__init__. The nondeterministic inputs uuid4() and
datetime.now() are passed explicitly as fresh_id, today and now. -/
def mkTask (fresh_id today now : String) (taskArg : String) (m : TaskMeta) : Task :=
  { id := match m.task_id with
      | some s => if s = "" then fresh_id else s
      | none => fresh_id
  , task := pystrip taskArg
  , group := let g := pystrip (pytitle m.group); if g = "" then "General" else g
  , due_date := match m.due_date with
      | some s => if s = "" then today else s
      | none => today
  , created_at := match m.created_at with
      | some s => if s = "" then now else s
      | none => now
  , priority := pylower m.priority
  , status := pylower m.status
  , sequence := m.sequence
  , depends_on := m.depends_on
  , notes := match m.notes with
      | NotesVal.note n => NotesVal.note n
      | NotesVal.raw s => NotesVal.raw (pystrip s)
  , note_id := none
  , tags := m.tags
  , recurrence := m.recurrence
  , parent_id := m.parent_id
  , subtasks := m.subtasks }

/-- A serialized task record (the dict passed to or produced by to_dict and
from_dict). A field is none when the key is absent or holds Python None;
from_dict reads every key through data.get, so this conflation is faithful. -/
structure TaskRecord where
  id : Option String := none
  task : Option String := none
  group : Option String := none
  due_date : Option String := none
  created_at : Option String := none
  priority : Option String := none
  status : Option String := none
  sequence : Option Int := none
  depends_on : Option String := none
  notes : Option String := none
  note_id : Option String := none
  tags : Option (List String) := none
  recurrence : Option Recurrence := none
  parent_id : Option String := none
  subtasks : Option (List String) := none
deriving DecidableEq, Repr

/-- Embedding of Task.to_dict. A Note instance in notes serializes as its
content string, and the serialized note_id is then the id of that Note. -/
def Task.to_dict (t : Task) : TaskRecord :=
  { id := some t.id
  , task := some t.task
  , group := some t.group
  , due_date := some t.due_date
  , created_at := some t.created_at
  , priority := some t.priority
  , status := some t.status
  , sequence := some t.sequence
  , depends_on := t.depends_on
  , notes := some (match t.notes with
      | NotesVal.note n => n.content
      | NotesVal.raw s => s)
  , note_id := (match t.notes with
      | NotesVal.note n => some n.id
      | NotesVal.raw _ => t.note_id)
  , tags := some t.tags
  , recurrence := t.recurrence
  , parent_id := t.parent_id
  , subtasks := some t.subtasks }

/-- Embedding of Task.from_dict. Note that the recurrence value handed to
TaskMeta is data.get with no default, so a record without a recurrence key
yields recurrence None, bypassing the TaskMeta dataclass default. -/
def Task.from_dict (fresh_id today now : String) (data : TaskRecord) : Task :=
  let meta : TaskMeta :=
    { group := data.group.getD "General"
    , due_date := data.due_date
    , priority := data.priority.getD "normal"
    , status := data.status.getD "pending"
    , sequence := data.sequence.getD 1
    , depends_on := data.depends_on
    , notes := NotesVal.raw (data.notes.getD "")
    , tags := data.tags.getD []
    , recurrence := data.recurrence
    , parent_id := data.parent_id
    , subtasks := data.subtasks.getD []
    , task_id := data.id
    , created_at := data.created_at }
  let t := mkTask fresh_id today now (data.task.getD "") meta
  { t with note_id := data.note_id }

/-! ## Derived-state queries on Task -/

/-- The id -> Task dictionary. -/
def Lookup := List (String × Task)

/-- Python dict lookup on the association list: the last binding of a key
wins, matching dict construction order. -/
def dictGet (l : Lookup) (k : String) : Option Task :=
  (List.find? (fun p => p.1 = k) (List.reverse l)).map (fun p => p.2)

/-- Embedding of Task.is_done. -/
def Task.is_done (t : Task) : Bool :=
  t.status = "done"

/-- Embedding of Task.is_blocked. The guard `if not self.depends_on` is
Python truthiness, so an empty-string depends_on also short-circuits to
False. -/
def Task.is_blocked (t : Task) (lookup : Lookup) : Bool :=
  match t.depends_on with
  | none => false
  | some d =>
    if d = "" then false
    else match dictGet lookup d with
      | none => false
      | some dep => !dep.is_done

/-- Embedding of Task.is_parent_blocked: true if any subtask id resolves to
a task that is not done; missing ids are skipped. -/
def Task.is_parent_blocked (t : Task) (lookup : Lookup) : Bool :=
  t.subtasks.any (fun subId =>
    match dictGet lookup subId with
    | none => false
    | some sub => !sub.is_done)

/-! ## Core task operations (logic/operations.py) -/

/-- Python exceptions that the operations layer can raise. -/
inductive PyErr where
  | valueError (msg : String)
  | typeError (msg : String)
  | attributeError (msg : String)
deriving DecidableEq, Repr

deriving instance DecidableEq for Except

/-- Embedding of is_recurring: task.recurrence or an empty dict, then
.get with default, compared against none. -/
def is_recurring (t : Task) : Bool :=
  match t.recurrence with
  | none => false
  | some r => !(r.frequency = "none")

/-- Embedding of compute_next_due_date on a parsed date. Python floor
division and modulo on ints are Int.fdiv and Int.fmod; date.replace and the
timedelta additions raise when the result is not a representable date, hence
the Option result. -/
def compute_next_due_date (d : Date) (frequency : String) (interval : Int) :
    Option Date :=
  if frequency = "daily" then dateInRange (addDays d interval)
  else if frequency = "weekly" then dateInRange (addDays d (7 * interval))
  else if frequency = "monthly" then
    let new_month := d.month - 1 + interval
    let year := d.year + Int.fdiv new_month 12
    let month := Int.fmod new_month 12 + 1
    let day := min d.day 28
    if validDate year month day then some ⟨year, month, day⟩ else none
  else if frequency = "yearly" then
    (if validDate (d.year + interval) d.month d.day then
      some ⟨d.year + interval, d.month, d.day⟩
    else none)
  else some d

/-- Parameters accepted by Task.__init__ in models/task.py (besides self). -/
def taskInitParams : List String := ["task", "meta"]

/-- Keyword arguments passed to the Task constructor by shallow_clone in
logic/operations.py, lines 149-162. -/
def shallowCloneCallKwargs : List String :=
  ["task", "group", "due_date", "priority", "status", "sequence", "notes",
   "tags", "recurrence", "task_id", "created_at", "depends_on"]

/-- Keyword arguments passed to the Task constructor inside
recursive_deep_clone (clone_task_recursive) in logic/operations.py,
lines 174-187. -/
def deepCloneCallKwargs : List String :=
  ["task", "group", "due_date", "priority", "status", "sequence", "notes",
   "tags", "recurrence", "depends_on", "task_id", "created_at"]

/-- A Python call whose arguments are all passed by keyword binds exactly
when every keyword names a declared parameter; otherwise the call raises
TypeError before the function body runs. -/
def kwargsBind (params kwargs : List String) : Bool :=
  kwargs.all (fun k => params.contains k)

/-- Embedding of clone_recurring_task. After reading the recurrence dict and
computing new_due, both shallow_clone and recursive_deep_clone construct the
clone via Task(...) with keyword arguments that Task.__init__ does not
accept (it takes only task and meta), so every reachable call ends in a
TypeError; the earlier steps can instead raise AttributeError (recurrence is
None) or ValueError (unparseable or out-of-range date). -/
def clone_recurring_task (t : Task) : Except PyErr Task :=
  match t.recurrence with
  | none =>
    Except.error (PyErr.attributeError "NoneType object has no attribute get")
  | some r =>
    match parseIsoDate t.due_date with
    | none => Except.error (PyErr.valueError "Invalid isoformat string")
    | some d =>
      match compute_next_due_date d r.frequency r.interval with
      | none => Except.error (PyErr.valueError "date value out of range")
      | some _ =>
        if kwargsBind taskInitParams
            (if r.clone_type = "deep" then deepCloneCallKwargs
             else shallowCloneCallKwargs) then
          -- Unreachable: the keyword sets do not bind (see the C3/C6
          -- theorems), so the constructor call never returns a task.
          Except.error (PyErr.typeError "unreachable")
        else
          Except.error
            (PyErr.typeError "Task.__init__ got an unexpected keyword argument")

/-- Embedding of toggle_status. The returned pair is the task object after
the call (Python mutates it in place) together with the outcome: an error,
or the optional clone returned for recurring tasks. A raise that happens
before the status assignment leaves the task component unchanged. -/
def toggle_status (t : Task) (lookup : Lookup) :
    Task × Except PyErr (Option Task) :=
  if t.is_blocked lookup then
    (t, Except.error
      (PyErr.valueError "This task is blocked by another incomplete task."))
  else if !t.subtasks.isEmpty
      && t.subtasks.any (fun subId =>
          match dictGet lookup subId with
          | none => false
          | some sub => !sub.is_done) then
    (t, Except.error (PyErr.valueError "This task has incomplete subtasks."))
  else
    let t2 : Task :=
      { t with status := if !(t.status = "done") then "done" else "pending" }
    if t2.status = "done" && is_recurring t2 then
      match clone_recurring_task t2 with
      | Except.ok c => (t2, Except.ok (some c))
      | Except.error e => (t2, Except.error e)
    else
      (t2, Except.ok none)

/-! ## Validation (logic/validation.py) -/

/-- The rules dictionary. Callers either pass all four keys or None; every
read goes through .get, whose per-site defaults agree with a total record. -/
structure Rules where
  strict_mode : Bool := false
  dependency_order : Bool := true
  group_priority_exclusive : Bool := true
  group_unique_names : Bool := true
deriving DecidableEq, Repr

/-- DEFAULT_RULES from logic/validation.py. -/
def DEFAULT_RULES : Rules :=
  { strict_mode := false, dependency_order := true,
    group_priority_exclusive := true, group_unique_names := true }

/-- The record returned by validate_task_creation. -/
structure CreationResult where
  warn : Bool
  block : Bool
  message : String
deriving DecidableEq, Repr

/-- Values of the Python dict, in insertion order. The program builds its
lookups as id-keyed dicts over tasks with distinct, freshly generated ids,
so the pair list carries each key once. -/
def dictValues (l : Lookup) : List Task :=
  l.map (fun p => p.2)

/-- Rule 2 message. -/
def msgDependencyOrder : String := "Task is due before its dependency."

/-- Rule 3 message (f-string with the task title and group spliced in). -/
def msgDuplicateName (title group : String) : String :=
  "Task \x27" ++ title ++ "\x27 already exists in group \x27" ++ group ++ "\x27."

/-- Rule 4 message. -/
def msgPriorityConflict (group : String) : String :=
  "Another high-priority task already exists in group \x27" ++ group ++ "\x27."

/-- Condition of rule 2 (due date must follow the dependency): the rule is
active, depends_on is truthy, it resolves, and the task is due before its
parent. -/
def rule2Triggers (t : Task) (lookup : Lookup) (rules : Rules) : Bool :=
  rules.dependency_order
    && (match t.depends_on with
        | none => false
        | some d =>
          if d = "" then false
          else match dictGet lookup d with
            | none => false
            | some parent => pyStrLt t.due_date parent.due_date)

/-- Condition of rule 3 (unique task name within the group): the rule is
active and another task in the lookup has the same title and group but a
different id. -/
def rule3Triggers (t : Task) (lookup : Lookup) (rules : Rules) : Bool :=
  rules.group_unique_names
    && !((dictValues lookup).filter (fun u =>
          u.task = t.task && u.group = t.group && !(u.id = t.id))).isEmpty

/-- Condition of rule 4 (one high-priority task per group): the rule is
active, the candidate is high priority, and another high-priority task with
a different id exists in the group. -/
def rule4Triggers (t : Task) (lookup : Lookup) (rules : Rules) : Bool :=
  rules.group_priority_exclusive && t.priority = "high"
    && !((dictValues lookup).filter (fun u =>
          u.group = t.group && u.priority = "high" && !(u.id = t.id))).isEmpty

/-- The message of the last rule that triggers under the fixed evaluation
order rule 2, rule 3, rule 4 (rule 1 returns early and is excluded). -/
def lastWarnMessage (t : Task) (lookup : Lookup) (rules : Rules) : String :=
  if rule4Triggers t lookup rules then msgPriorityConflict t.group
  else if rule3Triggers t lookup rules then msgDuplicateName t.task t.group
  else if rule2Triggers t lookup rules then msgDependencyOrder
  else ""

/-- Embedding of validate_task_creation. Rule 1 returns early; rules 2-4
each overwrite message and re-set warn/block when they trigger, so the final
message is the last triggered rule's text. -/
def validate_task_creation (t : Task) (lookup : Lookup)
    (orules : Option Rules) : CreationResult :=
  let rules := orules.getD DEFAULT_RULES
  if t.depends_on = some t.id then
    { warn := true, block := true, message := "Task cannot depend on itself." }
  else
    let st0 : CreationResult := { warn := false, block := false, message := "" }
    let st1 :=
      if rule2Triggers t lookup rules then
        { warn := true, block := rules.strict_mode,
          message := msgDependencyOrder }
      else st0
    let st2 :=
      if rule3Triggers t lookup rules then
        { st1 with
            warn := true, block := rules.strict_mode,
            message := msgDuplicateName t.task t.group }
      else st1
    let st3 :=
      if rule4Triggers t lookup rules then
        { st2 with
            warn := true, block := rules.strict_mode,
            message := msgPriorityConflict t.group }
      else st2
    st3

/-- Errors recorded by validate_task_graph, as structured values; rendering
to the exact Python message strings is renderVError. -/
inductive VError where
  | cycle (path : List String)
  | missingDep (title depId : String)
  | orderViolation (title depTitle : String)
  | multiHighPriority (group : String)
  | dupName (title group : String)
deriving DecidableEq, Repr

/-- Warnings recorded by validate_task_graph. -/
inductive VWarning where
  | missingSubtask (title subId : String)
deriving DecidableEq, Repr

/-- Render an error to the exact message string appended in the source. -/
def renderVError : VError → String
  | VError.cycle path => "Cycle detected: " ++ String.intercalate " → " path
  | VError.missingDep title depId =>
    title ++ " depends on missing task ID " ++ depId
  | VError.orderViolation title depTitle =>
    title ++ " is due before dependency " ++ depTitle
  | VError.multiHighPriority group =>
    "Multiple high-priority tasks in group \x27" ++ group ++ "\x27"
  | VError.dupName title group =>
    "Duplicate task \x27" ++ title ++ "\x27 in group \x27" ++ group ++ "\x27"

/-- Whether an error is a cycle report. -/
def isCycleError : VError → Bool
  | VError.cycle _ => true
  | _ => false

/-- The mutable traversal state of validate_task_graph: the visited and
active-recursion sets (kept in insertion order) and the accumulated errors
and warnings. -/
structure DfsState where
  visited : List String
  stack : List String
  errors : List VError
  warnings : List VWarning
deriving DecidableEq, Repr

/-- Suffix of the list from the first occurrence of x, as in Python
path[path.index(x):]. The x-not-found case cannot arise at the call site
(x is on the recursion stack, hence in the path). -/
def dropUntilId : List String → String → List String
  | [], _ => []
  | a :: as, x => if a = x then a :: as else dropUntilId as x

mutual

/-- Embedding of the inner dfs of validate_task_graph. The recursion is
fueled; validate_task_graph supplies fuel exceeding the deepest possible
recursion (every non-returning frame adds a distinct id to visited), so the
fuel-exhausted branch is never taken. -/
def dfs (lookup : Lookup) (rules : Rules) :
    Nat → Task → List String → DfsState → DfsState
  | 0, _, _, s => s
  | Nat.succ fuel, t, path, s =>
    if t.id ∈ s.stack then
      { s with errors := s.errors ++ [VError.cycle (dropUntilId path t.id ++ [t.id])] }
    else if t.id ∈ s.visited then s
    else
      let s1 : DfsState :=
        { s with stack := s.stack ++ [t.id], visited := s.visited ++ [t.id] }
      let s2 : DfsState :=
        match t.depends_on with
        | none => s1
        | some depId =>
          if depId = "" then s1
          else match dictGet lookup depId with
            | none =>
              { s1 with errors := s1.errors ++ [VError.missingDep t.task depId] }
            | some dep =>
              let s1a :=
                if rules.dependency_order && pyStrLt t.due_date dep.due_date then
                  { s1 with errors :=
                      s1.errors ++ [VError.orderViolation t.task dep.task] }
                else s1
              dfs lookup rules fuel dep (path ++ [t.id]) s1a
      let s3 := dfsSubs lookup rules fuel t t.subtasks path s2
      { s3 with stack := s3.stack.erase t.id }
termination_by f _ _ _ => (f, 0)

/-- The subtask loop of dfs. -/
def dfsSubs (lookup : Lookup) (rules : Rules) :
    Nat → Task → List String → List String → DfsState → DfsState
  | _, _, [], _, s => s
  | fuel, t, subId :: rest, path, s =>
    let s2 :=
      match dictGet lookup subId with
      | none =>
        { s with warnings := s.warnings ++ [VWarning.missingSubtask t.task subId] }
      | some sub => dfs lookup rules fuel sub (path ++ [t.id]) s
    dfsSubs lookup rules fuel t rest path s2
termination_by f _ subs _ _ => (f, subs.length + 1)

end

/-- The traversal phase of validate_task_graph: run dfs from every not yet
visited task, in list order. -/
def auditDfs (tasks : List Task) (rules : Rules) : DfsState :=
  let lookup : Lookup := tasks.map (fun t => (t.id, t))
  tasks.foldl
    (fun s t =>
      if t.id ∈ s.visited then s
      else dfs lookup rules (tasks.length + 2) t [] s)
    { visited := [], stack := [], errors := [], warnings := [] }

/-- One step of the post-traversal high-priority exclusivity pass: the
first high-priority task of a group is recorded, later ones are flagged. -/
def highPriorityStep (acc : List String × List VError) (t : Task) :
    List String × List VError :=
  if t.priority = "high" then
    if t.group ∈ acc.1 then (acc.1, acc.2 ++ [VError.multiHighPriority t.group])
    else (acc.1 ++ [t.group], acc.2)
  else acc

/-- The post-traversal high-priority exclusivity pass. -/
def highPriorityErrors (tasks : List Task) : List VError :=
  (tasks.foldl highPriorityStep ([], [])).2

/-- One step of the post-traversal duplicate-name pass: every second and
later occurrence of a (group, title) pair is flagged; the pair is recorded
after the check either way. -/
def dupNameStep (acc : List (String × String) × List VError) (t : Task) :
    List (String × String) × List VError :=
  (acc.1 ++ [(t.group, t.task)],
    if (t.group, t.task) ∈ acc.1 then acc.2 ++ [VError.dupName t.task t.group]
    else acc.2)

/-- The post-traversal duplicate-name pass. -/
def dupNameErrors (tasks : List Task) : List VError :=
  (tasks.foldl dupNameStep ([], [])).2

/-- All errors recorded by a validate_task_graph call before the report is
built: traversal errors, then the two group-based passes. -/
def auditErrors (tasks : List Task) (rules : Rules) : List VError :=
  (auditDfs tasks rules).errors
    ++ (if rules.group_priority_exclusive then highPriorityErrors tasks else [])
    ++ (if rules.group_unique_names then dupNameErrors tasks else [])

/-- The report returned by validate_task_graph. -/
structure Report where
  is_valid : Bool
  errors : List VError
  warnings : List VWarning
  validated_at : String
  affected_tasks : List String
deriving DecidableEq, Repr

/-- Embedding of validate_task_graph. datetime.now() is passed as now. In
strict mode with a non-empty error list the call raises ValueError carrying
the joined messages instead of returning the report. -/
def validate_task_graph (tasks : List Task) (orules : Option Rules)
    (now : String) : Except String Report :=
  let rules := orules.getD DEFAULT_RULES
  let s := auditDfs tasks rules
  let errors := auditErrors tasks rules
  if rules.strict_mode && !errors.isEmpty then
    Except.error
      ("Validation failed:\n" ++ String.intercalate "\n" (errors.map renderVError))
  else
    Except.ok
      { is_valid := errors.isEmpty
      , errors := errors
      , warnings := s.warnings
      , validated_at := now
      , affected_tasks := s.visited }

/-! ## Sample data used by witnesses -/

/-- A concrete task in the canonical shape produced by Task.__init__. -/
def sampleTask : Task :=
  { id := "t1", task := "Sample", group := "General", due_date := "2024-01-01",
    created_at := "2024-01-01T00:00:00", priority := "normal",
    status := "pending", sequence := 1, depends_on := none,
    notes := NotesVal.raw "", note_id := none, tags := [], recurrence := none,
    parent_id := none, subtasks := [] }

/-- A recurring task with a shallow clone rule. -/
def shallowRecurringTask : Task :=
  { sampleTask with recurrence := some { frequency := "daily" } }

/-- A completed subtask. -/
def doneSubtask : Task :=
  { sampleTask with id := "s1", status := "done" }

/-- A recurring task with a deep clone rule and one (completed) subtask. -/
def deepRecurringTask : Task :=
  { sampleTask with
      id := "p1", subtasks := ["s1"],
      recurrence := some { frequency := "weekly", clone_type := "deep" } }

/-- Lookup for the deep-clone sample. -/
def deepLookup : Lookup :=
  [("p1", deepRecurringTask), ("s1", doneSubtask)]

/-- A candidate task that is due before its dependency and duplicates a
name in its group. -/
def dupCandidateTask : Task :=
  { sampleTask with id := "w1", task := "Dup", depends_on := some "w2" }

/-- The dependency of dupCandidateTask: same title and group, later due
date. -/
def dupParentTask : Task :=
  { sampleTask with id := "w2", task := "Dup", due_date := "2024-06-01" }

/-- One half of a concrete two-task dependency cycle. -/
def cycleTaskA : Task :=
  { sampleTask with id := "a", task := "A", depends_on := some "b" }

/-- The other half of the concrete two-task dependency cycle. -/
def cycleTaskB : Task :=
  { sampleTask with id := "b", task := "B", depends_on := some "a" }

/-- cycleTaskA with a subtask edge to itself, in addition to the mutual
depends_on cycle with cycleTaskB. -/
def cycleSelfTaskA : Task :=
  { cycleTaskA with subtasks := ["a"] }

/-! ## Theorems -/

/-- Every month has at least 28 days. -/
theorem le_daysInMonth (y m : Int) : 28 ≤ daysInMonth y m := by
  unfold daysInMonth
  split
  · split <;> norm_num
  · split <;> norm_num

/-- C9: is_blocked returns true iff depends_on is set, resolves in the
lookup, and the resolved predecessor is not done; when the id is missing
from the lookup it returns false (fails open). Stated for lookups without
an empty-string key, which every id-keyed lookup of the program satisfies
since Task.__init__ replaces a falsy task_id by a fresh uuid. -/
theorem is_blocked_iff (t : Task) (lookup : Lookup)
    (hempty : dictGet lookup "" = none) :
    (t.is_blocked lookup = true ↔
      ∃ d p, t.depends_on = some d ∧ dictGet lookup d = some p
        ∧ p.is_done = false)
    ∧ (∀ d, t.depends_on = some d → dictGet lookup d = none →
        t.is_blocked lookup = false) := by
  refine ⟨⟨?_, ?_⟩, ?_⟩
  · intro h
    rcases hd : t.depends_on with _ | d
    · simp only [Task.is_blocked, hd] at h
      cases h
    · simp only [Task.is_blocked, hd] at h
      by_cases he : d = ""
      · simp only [if_pos he] at h
        cases h
      · simp only [if_neg he] at h
        rcases hp : dictGet lookup d with _ | p
        · simp only [hp] at h
          cases h
        · simp only [hp] at h
          exact ⟨d, p, rfl, hp, by simpa using h⟩
  · rintro ⟨d, p, hd, hp, hnd⟩
    have he : ¬ d = "" := by
      intro hdd
      rw [hdd, hempty] at hp
      cases hp
    simp [Task.is_blocked, hd, he, hp, hnd]
  · intro d hd hp
    simp [Task.is_blocked, hd, hp, ite_self]

/-- C9 witness: a task whose dependency id does not resolve is not
blocked, and the characterization holds at a concrete input. -/
theorem is_blocked_iff_witness :
    (({ sampleTask with depends_on := some "missing" } : Task).is_blocked []
        = true ↔
      ∃ d p,
        ({ sampleTask with depends_on := some "missing" } : Task).depends_on
            = some d
          ∧ dictGet [] d = some p ∧ p.is_done = false)
    ∧ (∀ d,
        ({ sampleTask with depends_on := some "missing" } : Task).depends_on
            = some d →
        dictGet [] d = none →
        ({ sampleTask with depends_on := some "missing" } : Task).is_blocked []
          = false) :=
  is_blocked_iff { sampleTask with depends_on := some "missing" } [] rfl

/-- C5: the recurrence date arithmetic. Daily with interval 3 from
2024-01-30 gives 2024-02-02; monthly with interval 1 from 2024-01-31 clamps
the day to 28 and gives 2024-02-28; yearly with interval 1 from 2024-06-15
gives 2025-06-15; and in general, monthly shifts the month forward by the
interval (months counted from zero, with floor division carrying into the
year) and clamps the day of month to min(original day, 28). -/
theorem compute_next_due_date_spec :
    (compute_next_due_date ⟨2024, 1, 30⟩ "daily" 3 = some ⟨2024, 2, 2⟩
      ∧ Date.toIso ⟨2024, 2, 2⟩ = "2024-02-02")
    ∧ (compute_next_due_date ⟨2024, 1, 31⟩ "monthly" 1 = some ⟨2024, 2, 28⟩
      ∧ Date.toIso ⟨2024, 2, 28⟩ = "2024-02-28")
    ∧ (compute_next_due_date ⟨2024, 6, 15⟩ "yearly" 1 = some ⟨2025, 6, 15⟩
      ∧ Date.toIso ⟨2025, 6, 15⟩ = "2025-06-15")
    ∧ (∀ (d : Date) (interval : Int),
        validDate d.year d.month d.day = true →
        0 ≤ interval →
        d.year + Int.fdiv (d.month - 1 + interval) 12 ≤ 9999 →
        compute_next_due_date d "monthly" interval =
          some ⟨d.year + Int.fdiv (d.month - 1 + interval) 12,
                Int.fmod (d.month - 1 + interval) 12 + 1,
                min d.day 28⟩) := by
  refine ⟨⟨by decide, by decide⟩, ⟨by decide, by decide⟩, ⟨by decide, by decide⟩, ?_⟩
  intro d interval hvalid hnonneg hbound
  unfold validDate at hvalid
  simp only [Bool.and_eq_true, decide_eq_true_eq] at hvalid
  obtain ⟨⟨⟨⟨⟨hy1, hy2⟩, hm1⟩, hm2⟩, hd1⟩, hd2⟩ := hvalid
  have hnm : 0 ≤ d.month - 1 + interval := by omega
  have hfd : Int.fdiv (d.month - 1 + interval) 12
      = (d.month - 1 + interval) / 12 := Int.fdiv_eq_ediv _ (by norm_num)
  have hfm : Int.fmod (d.month - 1 + interval) 12
      = (d.month - 1 + interval) % 12 := Int.fmod_eq_emod _ (by norm_num)
  have hmod1 : 0 ≤ (d.month - 1 + interval) % 12 :=
    Int.emod_nonneg _ (by norm_num)
  have hmod2 : (d.month - 1 + interval) % 12 < 12 :=
    Int.emod_lt_of_pos _ (by norm_num)
  have hdivnn : 0 ≤ (d.month - 1 + interval) / 12 :=
    Int.ediv_nonneg hnm (by norm_num)
  have hvalid2 : validDate (d.year + Int.fdiv (d.month - 1 + interval) 12)
      (Int.fmod (d.month - 1 + interval) 12 + 1) (min d.day 28) = true := by
    unfold validDate
    rw [hfd, hfm]
    simp only [Bool.and_eq_true, decide_eq_true_eq]
    have h28 := le_daysInMonth (d.year + (d.month - 1 + interval) / 12)
      ((d.month - 1 + interval) % 12 + 1)
    refine ⟨⟨⟨⟨⟨?_, ?_⟩, ?_⟩, ?_⟩, ?_⟩, ?_⟩ <;> omega
  unfold compute_next_due_date
  rw [if_neg (by decide), if_neg (by decide), if_pos rfl]
  simp only [hvalid2, if_true]

/-- C5 witness: the general monthly clause at a concrete input, monthly
with interval 14 from 2024-11-30: month index 10 + 14 carries one year and
lands on month 1, day clamped to 28. -/
theorem compute_next_due_date_spec_witness :
    compute_next_due_date ⟨2024, 11, 30⟩ "monthly" 14 =
      some ⟨2024 + Int.fdiv (11 - 1 + 14) 12, Int.fmod (11 - 1 + 14) 12 + 1,
            min 30 28⟩ :=
  compute_next_due_date_spec.2.2.2 ⟨2024, 11, 30⟩ 14 (by decide) (by decide)
    (by decide)

/-- C4 counterexample: a record with no recurrence key does not get the
schema default recurrence; from_dict hands data.get("recurrence") — None —
to TaskMeta, bypassing the dataclass default, so the resulting task has
recurrence None. -/
theorem from_dict_missing_recurrence_counterexample :
    ¬ ((Task.from_dict "f1" "2024-01-01" "2024-01-01T00:00:00"
          { task := some "Sample" }).recurrence
        = some { frequency := "none", interval := 1, clone_type := "shallow" }) := by
  decide

/-- C4 amended: from_dict (to_dict t) reproduces every field of t for tasks
in the canonical shape produced by Task.__init__ whose notes field is a raw
string (a Note-valued notes field serializes as its content string); and a
record missing the recurrence key yields a task whose recurrence is None —
the TaskMeta schema default is not applied. -/
theorem to_dict_from_dict_amended :
    (∀ (t : Task) (f today now s : String),
      t.notes = NotesVal.raw s → pystrip s = s → ¬ t.id = "" →
      pystrip t.task = t.task → pystrip (pytitle t.group) = t.group →
      ¬ t.group = "" → ¬ t.due_date = "" → ¬ t.created_at = "" →
      pylower t.priority = t.priority → pylower t.status = t.status →
      Task.from_dict f today now t.to_dict = t)
    ∧ (∀ (data : TaskRecord) (f today now : String),
        data.recurrence = none →
        (Task.from_dict f today now data).recurrence = none) := by
  constructor
  · intro t f today now s hnotes hs hid htask hgroup hg hdue hca hpr hst
    rcases t with ⟨id, task, group, due, created, prio, stat, seq, dep, notes,
      nid, tags, rec, pid, subs⟩
    simp only at hnotes hid htask hgroup hg hdue hca hpr hst
    subst hnotes
    simp [Task.to_dict, Task.from_dict, mkTask, hs, hid, htask, hgroup, hg,
      hdue, hca, hpr, hst]
  · intro data f today now hrec
    simp [Task.from_dict, mkTask, hrec]

/-- C4 witness: the amended round trip at the concrete canonical sample
task. -/
theorem to_dict_from_dict_amended_witness :
    Task.from_dict "f1" "2024-02-02" "2024-02-02T00:00:00" sampleTask.to_dict
      = sampleTask :=
  to_dict_from_dict_amended.1 sampleTask "f1" "2024-02-02"
    "2024-02-02T00:00:00" "" rfl (by decide) (by decide) (by decide)
    (by decide) (by decide) (by decide) (by decide) (by decide) (by decide)

/-- C6: completing a shallow-clone recurring task does not produce the
described clone; the Task constructor call in shallow_clone passes keyword
arguments that Task.__init__ (which accepts only task and meta) cannot
bind, so the toggle that triggers cloning raises TypeError. The first
conjunct shows the keyword set of the call site does not bind against the
constructor parameters; the second evaluates the toggle on a concrete
recurring shallow-clone task. -/
theorem shallow_clone_constructor_call_fails :
    kwargsBind taskInitParams shallowCloneCallKwargs = false
    ∧ toggle_status shallowRecurringTask [] =
        ({ shallowRecurringTask with status := "done" },
          Except.error
            (PyErr.typeError "Task.__init__ got an unexpected keyword argument")) := by
  exact ⟨by decide, by decide⟩

/-- C3: the deep clone of a recurring task never returns the described
subtree; the Task constructor call inside recursive_deep_clone passes
keyword arguments that Task.__init__ (which accepts only task and meta)
cannot bind, so the toggle that triggers deep cloning raises TypeError
before any node is cloned. -/
theorem deep_clone_constructor_call_fails :
    kwargsBind taskInitParams deepCloneCallKwargs = false
    ∧ toggle_status deepRecurringTask deepLookup =
        ({ deepRecurringTask with status := "done" },
          Except.error
            (PyErr.typeError "Task.__init__ got an unexpected keyword argument")) := by
  exact ⟨by decide, by decide⟩

/-- Helper shared by the toggle-guard theorems: whenever the dependency of
a task resolves to a not-done predecessor, or some subtask id resolves to a
not-done task, toggle_status raises ValueError and returns the task
unchanged. Stated for lookups without an empty-string key (every id-keyed
lookup of the program, since falsy ids are replaced by fresh uuids). -/
theorem toggle_status_rejects (t : Task) (lookup : Lookup)
    (hempty : dictGet lookup "" = none)
    (h : (∃ d p, t.depends_on = some d ∧ dictGet lookup d = some p
            ∧ p.is_done = false)
       ∨ (∃ sid sub, sid ∈ t.subtasks ∧ dictGet lookup sid = some sub
            ∧ sub.is_done = false)) :
    ∃ msg, toggle_status t lookup = (t, Except.error (PyErr.valueError msg)) := by
  by_cases hb : t.is_blocked lookup = true
  · exact ⟨"This task is blocked by another incomplete task.",
      by simp [toggle_status, hb]⟩
  · have hb2 : t.is_blocked lookup = false := by
      cases h2 : t.is_blocked lookup
      · rfl
      · exact absurd h2 hb
    rcases h with ⟨d, p, hd, hp, hnd⟩ | ⟨sid, sub, hmem, hsub, hnd⟩
    · exfalso
      apply hb
      have he : ¬ d = "" := by
        intro hdd
        rw [hdd, hempty] at hp
        cases hp
      simp [Task.is_blocked, hd, he, hp, hnd]
    · have hne : t.subtasks.isEmpty = false := by
        cases hsubs : t.subtasks
        · rw [hsubs] at hmem
          cases hmem
        · rfl
      have hany : (t.subtasks.any fun subId =>
          match dictGet lookup subId with
          | none => false
          | some sub => !sub.is_done) = true := by
        rw [List.any_eq_true]
        exact ⟨sid, hmem, by rw [hsub]; simp [hnd]⟩
      exact ⟨"This task has incomplete subtasks.",
        by simp [toggle_status, hb2, hne, hany]⟩

/-- C1: whenever the dependency of a task resolves in the lookup to a
not-done predecessor, or some subtask id resolves to a not-done task, the
status toggle raises (ValueError in the source, the BlockedTransition
signal of the spec) and the task — every field of it — is returned
unchanged: the raise happens before any mutation. -/
theorem toggle_blocked_rejected_unchanged (t : Task) (lookup : Lookup)
    (hempty : dictGet lookup "" = none)
    (h : (∃ d p, t.depends_on = some d ∧ dictGet lookup d = some p
            ∧ p.is_done = false)
       ∨ (∃ sid sub, sid ∈ t.subtasks ∧ dictGet lookup sid = some sub
            ∧ sub.is_done = false)) :
    ∃ msg, toggle_status t lookup = (t, Except.error (PyErr.valueError msg)) :=
  toggle_status_rejects t lookup hempty h

/-- C1 witness: a concrete pending task blocked by a concrete pending
predecessor is rejected unchanged. -/
theorem toggle_blocked_rejected_unchanged_witness :
    ∃ msg,
      toggle_status { sampleTask with id := "c1", depends_on := some "c2" }
          [("c2", { sampleTask with id := "c2" })]
        = ({ sampleTask with id := "c1", depends_on := some "c2" },
            Except.error (PyErr.valueError msg)) :=
  toggle_blocked_rejected_unchanged
    { sampleTask with id := "c1", depends_on := some "c2" }
    [("c2", { sampleTask with id := "c2" })] (by decide)
    (Or.inl ⟨"c2", { sampleTask with id := "c2" }, rfl, by decide, by decide⟩)

/-- C10: the blocked-dependency and incomplete-subtask guard runs before
the transition direction is considered: a task whose status is already done
but whose dependency (or a subtask) resolves to a not-done task is rejected
by toggle_status with the same error, and is not flipped back to pending. -/
theorem toggle_guard_ignores_direction (t : Task) (lookup : Lookup)
    (hdone : t.status = "done")
    (hempty : dictGet lookup "" = none)
    (h : (∃ d p, t.depends_on = some d ∧ dictGet lookup d = some p
            ∧ ¬ p.status = "done")
       ∨ (∃ sid sub, sid ∈ t.subtasks ∧ dictGet lookup sid = some sub
            ∧ ¬ sub.status = "done")) :
    (∃ msg, toggle_status t lookup = (t, Except.error (PyErr.valueError msg)))
    ∧ (toggle_status t lookup).1.status = "done" := by
  have h2 : (∃ d p, t.depends_on = some d ∧ dictGet lookup d = some p
        ∧ p.is_done = false)
      ∨ (∃ sid sub, sid ∈ t.subtasks ∧ dictGet lookup sid = some sub
        ∧ sub.is_done = false) := by
    rcases h with ⟨d, p, hd, hp, hnd⟩ | ⟨sid, sub, hmem, hsub, hnd⟩
    · exact Or.inl ⟨d, p, hd, hp, by simp [Task.is_done, hnd]⟩
    · exact Or.inr ⟨sid, sub, hmem, hsub, by simp [Task.is_done, hnd]⟩
  obtain ⟨msg, hm⟩ := toggle_status_rejects t lookup hempty h2
  refine ⟨⟨msg, hm⟩, ?_⟩
  rw [hm]
  exact hdone

/-- C10 witness: a concrete done task depending on a pending task is
rejected and stays done. -/
theorem toggle_guard_ignores_direction_witness :
    (∃ msg,
      toggle_status
          { sampleTask with id := "c3", status := "done", depends_on := some "c4" }
          [("c4", { sampleTask with id := "c4" })]
        = ({ sampleTask with id := "c3", status := "done", depends_on := some "c4" },
            Except.error (PyErr.valueError msg)))
    ∧ (toggle_status
          { sampleTask with id := "c3", status := "done", depends_on := some "c4" }
          [("c4", { sampleTask with id := "c4" })]).1.status = "done" :=
  toggle_guard_ignores_direction
    { sampleTask with id := "c3", status := "done", depends_on := some "c4" }
    [("c4", { sampleTask with id := "c4" })] rfl (by decide)
    (Or.inl ⟨"c4", { sampleTask with id := "c4" }, rfl, by decide, by decide⟩)

/-- C8: when the self-dependency rule does not fire and more than one of
the non-blocking warning rules trigger, validate_task_creation returns
warn = true and a message equal to the text of the last triggered rule
under the fixed order rule 2 (dependency order), rule 3 (unique names),
rule 4 (priority exclusivity); earlier messages are overwritten. -/
theorem validate_creation_last_message_wins (t : Task) (lookup : Lookup)
    (orules : Option Rules)
    (hself : ¬ t.depends_on = some t.id)
    (_hstrict : (orules.getD DEFAULT_RULES).strict_mode = false)
    (hmulti : 2 ≤ (rule2Triggers t lookup (orules.getD DEFAULT_RULES)).toNat
        + (rule3Triggers t lookup (orules.getD DEFAULT_RULES)).toNat
        + (rule4Triggers t lookup (orules.getD DEFAULT_RULES)).toNat) :
    (validate_task_creation t lookup orules).warn = true
    ∧ (validate_task_creation t lookup orules).message
        = lastWarnMessage t lookup (orules.getD DEFAULT_RULES) := by
  by_cases h2 : rule2Triggers t lookup (orules.getD DEFAULT_RULES) = true <;>
  by_cases h3 : rule3Triggers t lookup (orules.getD DEFAULT_RULES) = true <;>
  by_cases h4 : rule4Triggers t lookup (orules.getD DEFAULT_RULES) = true <;>
    simp [validate_task_creation, lastWarnMessage, hself, h2, h3, h4] at hmulti ⊢

/-- C8 witness: a concrete candidate triggering both the dependency-order
rule and the duplicate-name rule surfaces only the duplicate-name message. -/
theorem validate_creation_last_message_wins_witness :
    (validate_task_creation dupCandidateTask [("w2", dupParentTask)] none).warn
        = true
    ∧ (validate_task_creation dupCandidateTask [("w2", dupParentTask)] none).message
        = lastWarnMessage dupCandidateTask [("w2", dupParentTask)]
            (Option.getD none DEFAULT_RULES) :=
  validate_creation_last_message_wins dupCandidateTask [("w2", dupParentTask)]
    none (by decide) (by decide) (by decide)

/-- C7: validate_task_graph raises exactly when strict mode is on and the
audit recorded at least one error; otherwise it returns a report whose
is_valid field is true exactly when the errors list is empty. -/
theorem validate_graph_strict_raises_iff (tasks : List Task)
    (orules : Option Rules) (now : String) :
    ((∃ msg, validate_task_graph tasks orules now = Except.error msg) ↔
      ((orules.getD DEFAULT_RULES).strict_mode = true
        ∧ ¬ auditErrors tasks (orules.getD DEFAULT_RULES) = []))
    ∧ (∀ rep, validate_task_graph tasks orules now = Except.ok rep →
        (rep.is_valid = true ↔ rep.errors = [])) := by
  unfold validate_task_graph
  by_cases hs : (orules.getD DEFAULT_RULES).strict_mode = true <;>
  by_cases he : auditErrors tasks (orules.getD DEFAULT_RULES) = [] <;>
    simp_all [List.isEmpty_iff]

/-- C7 witness: at a concrete task list with default rules the call returns
a report, and the characterization holds. -/
theorem validate_graph_strict_raises_iff_witness :
    ((∃ msg, validate_task_graph [sampleTask] none "2024-01-01T00:00:00"
        = Except.error msg) ↔
      ((Option.getD none DEFAULT_RULES).strict_mode = true
        ∧ ¬ auditErrors [sampleTask] (Option.getD none DEFAULT_RULES) = []))
    ∧ (∀ rep,
        validate_task_graph [sampleTask] none "2024-01-01T00:00:00"
          = Except.ok rep →
        (rep.is_valid = true ↔ rep.errors = [])) :=
  validate_graph_strict_raises_iff [sampleTask] none "2024-01-01T00:00:00"

/-- The high-priority pass only ever appends multiHighPriority errors, so
it contributes no cycle errors. -/
theorem highPriority_foldl_no_cycle (tasks : List Task) (seen : List String)
    (errs : List VError) (h : errs.filter isCycleError = []) :
    ((tasks.foldl highPriorityStep (seen, errs)).2).filter isCycleError = [] := by
  induction tasks generalizing seen errs with
  | nil => simpa using h
  | cons t ts ih =>
    rw [List.foldl_cons]
    by_cases hp : t.priority = "high"
    · by_cases hg : t.group ∈ seen
      · rw [show highPriorityStep (seen, errs) t
            = (seen, errs ++ [VError.multiHighPriority t.group]) from by
          simp [highPriorityStep, hp, hg]]
        exact ih _ _ (by simp [List.filter_append, h, isCycleError])
      · rw [show highPriorityStep (seen, errs) t = (seen ++ [t.group], errs) from by
          simp [highPriorityStep, hp, hg]]
        exact ih _ _ h
    · rw [show highPriorityStep (seen, errs) t = (seen, errs) from by
        simp [highPriorityStep, hp]]
      exact ih _ _ h

/-- The high-priority pass contributes no cycle errors. -/
theorem highPriorityErrors_no_cycle (tasks : List Task) :
    (highPriorityErrors tasks).filter isCycleError = [] :=
  highPriority_foldl_no_cycle tasks [] [] rfl

/-- The duplicate-name pass only ever appends dupName errors, so it
contributes no cycle errors. -/
theorem dupName_foldl_no_cycle (tasks : List Task)
    (seen : List (String × String)) (errs : List VError)
    (h : errs.filter isCycleError = []) :
    ((tasks.foldl dupNameStep (seen, errs)).2).filter isCycleError = [] := by
  induction tasks generalizing seen errs with
  | nil => simpa using h
  | cons t ts ih =>
    rw [List.foldl_cons]
    by_cases hk : (t.group, t.task) ∈ seen
    · rw [show dupNameStep (seen, errs) t
          = (seen ++ [(t.group, t.task)], errs ++ [VError.dupName t.task t.group])
        from by simp [dupNameStep, hk]]
      exact ih _ _ (by simp [List.filter_append, h, isCycleError])
    · rw [show dupNameStep (seen, errs) t
          = (seen ++ [(t.group, t.task)], errs) from by simp [dupNameStep, hk]]
      exact ih _ _ h

/-- The duplicate-name pass contributes no cycle errors. -/
theorem dupNameErrors_no_cycle (tasks : List Task) :
    (dupNameErrors tasks).filter isCycleError = [] :=
  dupName_foldl_no_cycle tasks [] [] rfl

/-- C2 (amended): for a task set consisting exactly of two subtask-free
tasks with distinct non-empty ids that depend on each other,
validate_task_graph with default (non-strict) rules returns a report with
is_valid false whose errors contain exactly one cycle error, and that
cycle names the full cycle path — both ids, closed by repeating the start
id. (With further edges or further tasks in the set the traversal can
record additional cycle errors; see the counterexample.) -/
theorem cycle_pair_detected (A B : Task) (now : String)
    (hne : ¬ A.id = B.id) (hA : A.depends_on = some B.id)
    (hB : B.depends_on = some A.id)
    (hidA : ¬ A.id = "") (hidB : ¬ B.id = "")
    (hsubA : A.subtasks = []) (hsubB : B.subtasks = []) :
    ∃ rep, validate_task_graph [A, B] none now = Except.ok rep
      ∧ rep.is_valid = false
      ∧ rep.errors.filter isCycleError = [VError.cycle [A.id, B.id, A.id]] := by
  have hne2 : ¬ B.id = A.id := fun h => hne h.symm
  have hgA : dictGet [(A.id, A), (B.id, B)] A.id = some A := by
    simp [dictGet, hne2]
  have hgB : dictGet [(A.id, A), (B.id, B)] B.id = some B := by
    simp [dictGet]
  have herr : (auditErrors [A, B] DEFAULT_RULES).filter isCycleError
      = [VError.cycle [A.id, B.id, A.id]] := by
    by_cases hd1 : pyStrLt A.due_date B.due_date = true <;>
    by_cases hd2 : pyStrLt B.due_date A.due_date = true <;>
      simp [auditErrors, auditDfs, dfs, dfsSubs, DEFAULT_RULES, dropUntilId,
        isCycleError, hne, hne2, hA, hB, hidA, hidB, hsubA, hsubB, hd1, hd2,
        hgA, hgB, List.filter_append, List.erase_cons,
        highPriorityErrors_no_cycle, dupNameErrors_no_cycle]
  have hval : (auditErrors [A, B] DEFAULT_RULES).isEmpty = false := by
    cases hE : auditErrors [A, B] DEFAULT_RULES with
    | nil => rw [hE] at herr; simp at herr
    | cons x l => simp
  have hok : validate_task_graph [A, B] none now =
      Except.ok
        { is_valid := (auditErrors [A, B] DEFAULT_RULES).isEmpty
        , errors := auditErrors [A, B] DEFAULT_RULES
        , warnings := (auditDfs [A, B] DEFAULT_RULES).warnings
        , validated_at := now
        , affected_tasks := (auditDfs [A, B] DEFAULT_RULES).visited } := by
    unfold validate_task_graph
    simp [DEFAULT_RULES]
  exact ⟨_, hok, hval, herr⟩

/-- C2 witness: the concrete two-task cycle a -> b -> a is reported as the
single cycle error with path a, b, a. -/
theorem cycle_pair_detected_witness :
    ∃ rep, validate_task_graph [cycleTaskA, cycleTaskB] none "2024-01-01"
        = Except.ok rep
      ∧ rep.is_valid = false
      ∧ rep.errors.filter isCycleError
          = [VError.cycle [cycleTaskA.id, cycleTaskB.id, cycleTaskA.id]] :=
  cycle_pair_detected cycleTaskA cycleTaskB "2024-01-01" (by decide) rfl rfl
    (by decide) (by decide) rfl rfl

/-- Helper for the C2 counterexample: when the first task of a mutually
dependent pair additionally lists itself as a subtask, the traversal
records two cycle errors — the depends_on cycle through both tasks and the
self-subtask cycle. -/
theorem cycle_pair_self_subtask (A B : Task) (now : String)
    (hne : ¬ A.id = B.id) (hA : A.depends_on = some B.id)
    (hB : B.depends_on = some A.id)
    (hidA : ¬ A.id = "") (hidB : ¬ B.id = "")
    (hsubA : A.subtasks = [A.id]) (hsubB : B.subtasks = []) :
    ∃ rep, validate_task_graph [A, B] none now = Except.ok rep
      ∧ rep.is_valid = false
      ∧ rep.errors.filter isCycleError
          = [VError.cycle [A.id, B.id, A.id], VError.cycle [A.id, A.id]] := by
  have hne2 : ¬ B.id = A.id := fun h => hne h.symm
  have hgA : dictGet [(A.id, A), (B.id, B)] A.id = some A := by
    simp [dictGet, hne2]
  have hgB : dictGet [(A.id, A), (B.id, B)] B.id = some B := by
    simp [dictGet]
  have herr : (auditErrors [A, B] DEFAULT_RULES).filter isCycleError
      = [VError.cycle [A.id, B.id, A.id], VError.cycle [A.id, A.id]] := by
    by_cases hd1 : pyStrLt A.due_date B.due_date = true <;>
    by_cases hd2 : pyStrLt B.due_date A.due_date = true <;>
      simp [auditErrors, auditDfs, dfs, dfsSubs, DEFAULT_RULES, dropUntilId,
        isCycleError, hne, hne2, hA, hB, hidA, hidB, hsubA, hsubB, hd1, hd2,
        hgA, hgB, List.filter_append, List.erase_cons,
        highPriorityErrors_no_cycle, dupNameErrors_no_cycle]
  have hval : (auditErrors [A, B] DEFAULT_RULES).isEmpty = false := by
    cases hE : auditErrors [A, B] DEFAULT_RULES with
    | nil => rw [hE] at herr; simp at herr
    | cons x l => simp
  have hok : validate_task_graph [A, B] none now =
      Except.ok
        { is_valid := (auditErrors [A, B] DEFAULT_RULES).isEmpty
        , errors := auditErrors [A, B] DEFAULT_RULES
        , warnings := (auditDfs [A, B] DEFAULT_RULES).warnings
        , validated_at := now
        , affected_tasks := (auditDfs [A, B] DEFAULT_RULES).visited } := by
    unfold validate_task_graph
    simp [DEFAULT_RULES]
  exact ⟨_, hok, hval, herr⟩

/-- C2 counterexample: a task set containing two mutually dependent tasks
on which validate_task_graph (non-strict) reports two cycle errors rather
than exactly one — the first task also lists itself as a subtask, so the
traversal records the pair cycle and the self cycle. This refutes the
claim as frozen, which quantifies over every task set containing such a
pair. -/
theorem cycle_pair_counterexample :
    cycleSelfTaskA.depends_on = some cycleTaskB.id
    ∧ cycleTaskB.depends_on = some cycleSelfTaskA.id
    ∧ ∃ rep,
        validate_task_graph [cycleSelfTaskA, cycleTaskB] none "2024-01-01"
          = Except.ok rep
        ∧ rep.is_valid = false
        ∧ ¬ (rep.errors.filter isCycleError).length = 1 := by
  obtain ⟨rep, hok, hval, herr⟩ :=
    cycle_pair_self_subtask cycleSelfTaskA cycleTaskB "2024-01-01" (by decide)
      rfl rfl (by decide) (by decide) rfl rfl
  refine ⟨rfl, rfl, rep, hok, hval, ?_⟩
  rw [herr]
  simp

end TaskTicker
